import Mathlib

/-
Verification of the SMPP transceiver client core
(vumi/workers/smpp/client.py): the framer, the sequence allocator,
the bind-state guards, the unacked accounting, the command-status
classifier, the factory configuration validation and the deliver_sm
dispatch. Python byte strings are modelled as List Nat (one Nat per
byte), the Redis unacked list as a Lean list, and the mutable
sequence cell seq[0] as a threaded Nat field.
-/

/-- Fault classes of the VUMI error taxonomy: the six possible results of
dispatching a command_status (self.error_handlers keys in the source). -/
inductive FaultClass where
  | ok
  | mess_permfault
  | mess_tempfault
  | conn_permfault
  | conn_tempfault
  | conn_throttle
deriving DecidableEq, Repr

/-- Embedding of EsmeTransceiver.build_maps: the dictionary
ESME_command_status_dispatch_map, with each dispatch_X method replaced by
the fault class it selects from error_handlers. Order and entries follow
the source dictionary literal. -/
def ESME_command_status_dispatch_map : List (String × FaultClass) :=
  [ ("ESME_ROK", .ok),
    ("ESME_RINVMSGLEN", .mess_permfault),
    ("ESME_RINVCMDLEN", .mess_permfault),
    ("ESME_RINVCMDID", .mess_permfault),
    ("ESME_RINVBNDSTS", .conn_tempfault),
    ("ESME_RALYBND", .conn_tempfault),
    ("ESME_RINVPRTFLG", .mess_permfault),
    ("ESME_RINVREGDLVFLG", .mess_permfault),
    ("ESME_RSYSERR", .conn_permfault),
    ("ESME_RINVSRCADR", .mess_permfault),
    ("ESME_RINVDSTADR", .mess_permfault),
    ("ESME_RINVMSGID", .mess_permfault),
    ("ESME_RBINDFAIL", .conn_permfault),
    ("ESME_RINVPASWD", .conn_permfault),
    ("ESME_RINVSYSID", .conn_permfault),
    ("ESME_RCANCELFAIL", .mess_permfault),
    ("ESME_RREPLACEFAIL", .mess_permfault),
    ("ESME_RMSGQFUL", .conn_throttle),
    ("ESME_RINVSERTYP", .conn_permfault),
    ("ESME_RINVNUMDESTS", .mess_permfault),
    ("ESME_RINVDLNAME", .mess_permfault),
    ("ESME_RINVDESTFLAG", .mess_permfault),
    ("ESME_RINVSUBREP", .mess_permfault),
    ("ESME_RINVESMCLASS", .mess_permfault),
    ("ESME_RCNTSUBDL", .mess_permfault),
    ("ESME_RSUBMITFAIL", .mess_tempfault),
    ("ESME_RINVSRCTON", .mess_permfault),
    ("ESME_RINVSRCNPI", .mess_permfault),
    ("ESME_RINVDSTTON", .mess_permfault),
    ("ESME_RINVDSTNPI", .mess_permfault),
    ("ESME_RINVSYSTYP", .conn_permfault),
    ("ESME_RINVREPFLAG", .mess_permfault),
    ("ESME_RINVNUMMSGS", .mess_tempfault),
    ("ESME_RTHROTTLED", .conn_throttle),
    ("ESME_RINVSCHED", .mess_permfault),
    ("ESME_RINVEXPIRY", .mess_permfault),
    ("ESME_RINVDFTMSGID", .mess_permfault),
    ("ESME_RX_T_APPN", .mess_tempfault),
    ("ESME_RX_P_APPN", .mess_permfault),
    ("ESME_RX_R_APPN", .mess_permfault),
    ("ESME_RQUERYFAIL", .mess_permfault),
    ("ESME_RINVOPTPARSTREAM", .mess_permfault),
    ("ESME_ROPTPARNOTALLWD", .mess_permfault),
    ("ESME_RINVPARLEN", .mess_permfault),
    ("ESME_RMISSINGOPTPARAM", .mess_permfault),
    ("ESME_RINVOPTPARAMVAL", .mess_permfault),
    ("ESME_RDELIVERYFAILURE", .mess_tempfault),
    ("ESME_RUNKNOWNERR", .mess_tempfault) ]

/-- First-match association lookup, the behaviour of Python dict.get
on the (duplicate-free) dictionary literal above. -/
def lookupClass : List (String × FaultClass) → String → Option FaultClass
  | [], _ => none
  | kv :: rest, s => if s = kv.1 then some kv.2 else lookupClass rest s

/-- Embedding of EsmeTransceiver.command_status_dispatch: look the
command_status up in the dispatch map, defaulting to dispatch_ok
(the fault class ok) when the status is absent. -/
def command_status_dispatch (command_status : String) : FaultClass :=
  (lookupClass ESME_command_status_dispatch_map command_status).getD .ok

/-- Big-endian interpretation of a byte list as an unsigned integer:
int(binascii.b2a_hex(bytes), 16) in the source. -/
def bytesToNat (bs : List Nat) : Nat :=
  bs.foldl (fun acc b => 256 * acc + b) 0

/-- Embedding of EsmeTransceiver.popData. The datastream is a byte list;
if it holds at least 16 bytes, command_length is read as the big-endian
32-bit integer at offset 0 and, if the stream holds at least
command_length bytes, exactly that slice is returned together with the
advanced stream. Otherwise nothing is consumed. The source has no
error path here: it either pops a slice or leaves the stream intact. -/
def popData (datastream : List Nat) : Option (List Nat × List Nat) :=
  if 16 ≤ datastream.length then
    if bytesToNat (datastream.take 4) ≤ datastream.length then
      some (datastream.take (bytesToNat (datastream.take 4)),
            datastream.drop (bytesToNat (datastream.take 4)))
    else none
  else none

/-- Drain loop of EsmeTransceiver.dataReceived: repeatedly pop while a
whole PDU is buffered. The source loops without bound; the fuel argument
makes the recursion structural and is chosen large enough that it is
never exhausted on streams whose PDUs are nonempty. -/
def drain : Nat → List Nat → List (List Nat) × List Nat
  | 0, datastream => ([], datastream)
  | Nat.succ fuel, datastream =>
    match popData datastream with
    | none => ([], datastream)
    | some (pdu, rest) =>
      let r := drain fuel rest
      (pdu :: r.1, r.2)

/-- Embedding of EsmeTransceiver.dataReceived: append the chunk to the
datastream, then pop PDUs while possible. Returns the list of PDU slices
handed to handleData and the remaining datastream. -/
def dataReceived (datastream data : List Nat) : List (List Nat) × List Nat :=
  drain (datastream.length + data.length + 1) (datastream ++ data)

/-- State of one EsmeTransceiver relevant to the submit paths: the
connection state string, the shared sequence cell seq[0], the increment
from the config, the Redis unacked list for this connection prefix
(values pushed are the literal 1, as in the source), and the log of PDUs
written to the transport as (command name, sequence number) pairs.
The framer buffer (datastream) is modelled separately by popData and
dataReceived above; PDU bodies are outside the modelled state. -/
structure Esme where
  state : String
  seq : Nat
  inc : Nat
  unacked : List Nat
  sent : List (String × Nat)
deriving DecidableEq, Repr

/-- States in which the submit operations are allowed: the list literal
checked by the source as `self.state in [BOUND_TX, BOUND_TRX]`. -/
def bound_states : List String := ["BOUND_TX", "BOUND_TRX"]

/-- Embedding of EsmeTransceiver.getSeq: return seq[0]. -/
def getSeq (e : Esme) : Nat := e.seq

/-- Embedding of EsmeTransceiver.incSeq: seq[0] += self.inc. There is no
wrap of any kind; Python integers are unbounded. -/
def incSeq (e : Esme) : Esme := { e with seq := e.seq + e.inc }

/-- Embedding of EsmeTransceiver.submit_sm: in a bound state, allocate
the current sequence number, build and send a submit_sm PDU, increment
the cursor, push one marker (the literal 1) onto the unacked list and
return the allocated number; otherwise return 0 and change nothing. -/
def submit_sm (e : Esme) : Esme × Nat :=
  if e.state ∈ bound_states then
    ({ e with seq := e.seq + e.inc,
              unacked := 1 :: e.unacked,
              sent := e.sent ++ [("submit_sm", e.seq)] }, e.seq)
  else (e, 0)

/-- Embedding of EsmeTransceiver.submit_multi: as submit_sm but the
destination-address loop only adds entries to the PDU body (outside the
modelled state) and nothing is pushed onto the unacked list. -/
def submit_multi (e : Esme) : Esme × Nat :=
  if e.state ∈ bound_states then
    ({ e with seq := e.seq + e.inc,
              sent := e.sent ++ [("submit_multi", e.seq)] }, e.seq)
  else (e, 0)

/-- Embedding of EsmeTransceiver.enquire_link. -/
def enquire_link (e : Esme) : Esme × Nat :=
  if e.state ∈ bound_states then
    ({ e with seq := e.seq + e.inc,
              sent := e.sent ++ [("enquire_link", e.seq)] }, e.seq)
  else (e, 0)

/-- Embedding of EsmeTransceiver.query_sm. The message_id and
source_addr arguments only populate the PDU body. -/
def query_sm (e : Esme) (message_id source_addr : String) : Esme × Nat :=
  if e.state ∈ bound_states then
    ({ e with seq := e.seq + e.inc,
              sent := e.sent ++ [("query_sm", e.seq)] }, e.seq)
  else (e, 0)

/-- Embedding of the unacked effect of
EsmeTransceiver.handle_submit_sm_resp: lpop one element from the unacked
list (a no-op when the list is empty), then invoke the
submit_sm_resp callback (outside the modelled state). -/
def handle_submit_sm_resp (e : Esme) : Esme :=
  { e with unacked := e.unacked.tail }

/-- Embedding of EsmeTransceiverFactory.buildProtocol constructing a new
EsmeTransceiver: the protocol starts CLOSED with an empty datastream and
receives the factory sequence cell (shared by reference in the source,
threaded by value here) and the configured increment. -/
def buildProtocol (factory_seq inc : Nat) : Esme :=
  { state := "CLOSED", seq := factory_seq, inc := inc,
    unacked := [], sent := [] }

/-- Embedding of the validation in EsmeTransceiverFactory, with the
initial sequence cell seq = [smpp_offset] returned on success. The three
checks and their messages follow the source order. -/
def EsmeTransceiverFactory_init (smpp_increment smpp_offset : Int) :
    Except String Int :=
  if smpp_increment < smpp_offset then
    .error "increment may not be less than offset"
  else if smpp_increment < 1 then
    .error "increment may not be less than 1"
  else if smpp_offset < 1 then
    .error "offset may not be less than 1"
  else .ok smpp_offset

/-- Result of EsmeTransceiver._decode_message: either the message decoded
with a named codec, or the raw payload passed through with a warning. -/
inductive DecodedMessage where
  | decoded (codec : String) (message : String)
  | raw (message : String)
deriving DecidableEq, Repr

/-- Codec table of _decode_message: the dict literal
1 ascii, 3 latin1, 8 utf-16be, with .get(data_coding, None). -/
def codec_for (data_coding : Int) : Option String :=
  if data_coding = 1 then some "ascii"
  else if data_coding = 3 then some "latin1"
  else if data_coding = 8 then some "utf-16be"
  else none

/-- Embedding of EsmeTransceiver._decode_message: look the codec up by
data_coding; on a miss return the message undecoded. -/
def decode_message (message : String) (data_coding : Int) : DecodedMessage :=
  match codec_for data_coding with
  | none => .raw message
  | some c => .decoded c message

/-- Mandatory parameters of a deliver_sm PDU used by handle_deliver_sm. -/
structure DeliverSmParams where
  short_message : String
  data_coding : Int
  destination_addr : String
  source_addr : String
deriving DecidableEq, Repr

/-- The parts of a deliver_sm PDU read by handle_deliver_sm. -/
structure DeliverSmPdu where
  command_status : String
  sequence_number : Nat
  mandatory_parameters : DeliverSmParams
deriving DecidableEq, Repr

/-- The externally visible action handle_deliver_sm takes after sending
the response: invoke the delivery-report callback, hand the PDU to
multipart reassembly, or invoke the deliver callback with the decoded
message. -/
inductive DeliverAction where
  | report (destination_addr source_addr : String)
  | multipart
  | deliver (destination_addr source_addr : String) (message : DecodedMessage)
deriving DecidableEq, Repr

/-- Embedding of EsmeTransceiver.handle_deliver_sm. The whole handler is
guarded by command_status = ESME_ROK. Inside the guard it first sends a
DeliverSMResp carrying the sequence number of the inbound PDU, then
branches on an if/elif/else chain. The outcome of the delivery-report
regular expression on short_message (evaluated by the Python re library)
and of detect_multipart (from the external smpp.pdu_inspector library)
are passed in as the two Boolean arguments. Returns the list of PDUs
sent as (command name, sequence number) pairs, and the action taken. -/
def handle_deliver_sm (matches_delivery_report detects_multipart : Bool)
    (pdu : DeliverSmPdu) : List (String × Nat) × Option DeliverAction :=
  if pdu.command_status = "ESME_ROK" then
    ([("deliver_sm_resp", pdu.sequence_number)],
     some (if matches_delivery_report then
             .report pdu.mandatory_parameters.destination_addr
                     pdu.mandatory_parameters.source_addr
           else if detects_multipart then
             .multipart
           else
             .deliver pdu.mandatory_parameters.destination_addr
                      pdu.mandatory_parameters.source_addr
                      (decode_message pdu.mandatory_parameters.short_message
                                      pdu.mandatory_parameters.data_coding)))
  else ([], none)

/-- Sample engine in the bound state with an empty unacked list. -/
def esmeBoundSample : Esme :=
  { state := "BOUND_TRX", seq := 1, inc := 1, unacked := [], sent := [] }

/-- Sample engine in the CLOSED state. -/
def esmeClosedSample : Esme :=
  { state := "CLOSED", seq := 1, inc := 1, unacked := [], sent := [] }

/-- Sample 16-byte PDU whose command_length field equals its length. -/
def pduSampleB : List Nat :=
  [0, 0, 0, 16, 0, 0, 0, 5, 0, 0, 0, 0, 0, 0, 0, 7]

/-- Sample deliver_sm PDU with status ESME_ROK. -/
def deliverPduSample : DeliverSmPdu :=
  { command_status := "ESME_ROK", sequence_number := 42,
    mandatory_parameters :=
      { short_message := "hello", data_coding := 1,
        destination_addr := "27999", source_addr := "27111" } }

/-- Helper: iterating incSeq n times adds n times the increment to the
cursor and preserves the increment. -/
theorem incSeq_iterate (e : Esme) (n : Nat) :
    (incSeq^[n] e).seq = e.seq + n * e.inc ∧ (incSeq^[n] e).inc = e.inc := by
  induction n with
  | zero => simp
  | succ k ih =>
    rw [Function.iterate_succ_apply']
    refine ⟨?_, ih.2⟩
    show (incSeq^[k] e).seq + (incSeq^[k] e).inc = e.seq + (k + 1) * e.inc
    rw [ih.1, ih.2]
    ring

/-- Claim C2 (amended): getSeq returns the current cursor value and
incSeq increments the cursor by exactly the configured increment,
leaving the increment and the connection state unchanged; the cursor
never wraps, neither at two to the 31 minus one nor anywhere else,
because Python integers are unbounded and the source performs no
modular reduction. -/
theorem getSeq_incSeq_characterisation (e : Esme) :
    getSeq e = e.seq ∧ (incSeq e).seq = e.seq + e.inc ∧
    (incSeq e).inc = e.inc ∧ (incSeq e).state = e.state :=
  ⟨rfl, rfl, rfl, rfl⟩

/-- Claim C2 counterexample: with offset 1 and increment 1, an allocator
whose cursor stands at two to the 31 minus one does not wrap back to the
offset on the next allocation; the cursor moves to two to the 31. -/
theorem seq_no_wrap_cex :
    (incSeq { state := "BOUND_TRX", seq := 2147483647, inc := 1,
              unacked := [], sent := [] }).seq = 2147483648 ∧
    (2147483648 : Nat) ≠ 1 :=
  ⟨rfl, by decide⟩

/-- Claim C3: starting from cursor = offset, the n-th allocation of one
allocator returns offset plus n times the increment, so returned values
are strictly increasing and congruent to offset modulo the increment;
and a protocol instance built by the factory at cursor c starts exactly
at c, so the property extends across reconnects (the cursor cell is
shared by reference between factory and protocol in the source and is
threaded by value here). -/
theorem seq_allocator_monotone (offset inc : Nat) (hinc : 1 ≤ inc) :
    (∀ n, getSeq (incSeq^[n] (buildProtocol offset inc)) = offset + n * inc) ∧
    (∀ m n, m < n →
      getSeq (incSeq^[m] (buildProtocol offset inc)) <
      getSeq (incSeq^[n] (buildProtocol offset inc))) ∧
    (∀ n, getSeq (incSeq^[n] (buildProtocol offset inc)) % inc = offset % inc) ∧
    (∀ c : Nat, getSeq (buildProtocol c inc) = c) := by
  have key : ∀ n, getSeq (incSeq^[n] (buildProtocol offset inc)) = offset + n * inc := by
    intro n
    have h := (incSeq_iterate (buildProtocol offset inc) n).1
    simpa [getSeq, buildProtocol] using h
  refine ⟨key, ?_, ?_, fun c => rfl⟩
  · intro m n hmn
    rw [key m, key n]
    have hmul : m * inc < n * inc :=
      (Nat.mul_lt_mul_right (by omega)).mpr hmn
    omega
  · intro n
    rw [key n]
    exact Nat.add_mul_mod_self_right offset n inc

/-- Witness for claim C3 at offset 5, increment 1, two allocations. -/
theorem seq_allocator_monotone_witness :
    1 ≤ 1 ∧ getSeq (incSeq^[2] (buildProtocol 5 1)) = 5 + 2 * 1 :=
  ⟨by decide, (seq_allocator_monotone 5 1 (by decide)).1 2⟩

/-- Claim C9: factory construction fails exactly when the configuration
violates increment at least offset at least 1: it succeeds (setting the
sequence cell to the offset) if and only if offset is at most increment
and both are at least 1, and it raises if and only if increment is below
offset, or increment is below 1, or offset is below 1. -/
theorem factory_config_validation (smpp_increment smpp_offset : Int) :
    (EsmeTransceiverFactory_init smpp_increment smpp_offset = .ok smpp_offset ↔
      (smpp_offset ≤ smpp_increment ∧ 1 ≤ smpp_increment ∧ 1 ≤ smpp_offset)) ∧
    ((∃ msg, EsmeTransceiverFactory_init smpp_increment smpp_offset = .error msg) ↔
      (smpp_increment < smpp_offset ∨ smpp_increment < 1 ∨ smpp_offset < 1)) := by
  unfold EsmeTransceiverFactory_init
  split_ifs with h1 h2 h3 <;>
    refine ⟨⟨fun h => ?_, fun h => ?_⟩, ⟨fun h => ?_, fun h => ?_⟩⟩ <;>
    first
      | omega
      | simp_all
      | exact ⟨_, rfl⟩
      | rfl

/-- Witness for claim C9 at increment 3, offset 2. -/
theorem factory_config_validation_witness :
    EsmeTransceiverFactory_init 3 2 = .ok 2 :=
  (factory_config_validation 3 2).1.mpr (by decide)

/-- Claim C8: in every engine state outside BOUND_TX and BOUND_TRX,
submit_sm, submit_multi, enquire_link and query_sm return the sentinel
sequence number 0 and leave the engine (in particular its log of sent
PDUs) unchanged; the operations are total functions, so no exception is
raised. -/
theorem unbound_ops_noop (e : Esme) (h : e.state ∉ bound_states) :
    submit_sm e = (e, 0) ∧ submit_multi e = (e, 0) ∧ enquire_link e = (e, 0) ∧
    ∀ message_id source_addr, query_sm e message_id source_addr = (e, 0) := by
  refine ⟨?_, ?_, ?_, fun mid sa => ?_⟩ <;>
    simp [submit_sm, submit_multi, enquire_link, query_sm, h]

/-- Witness for claim C8 on the CLOSED sample engine. -/
theorem unbound_ops_noop_witness :
    submit_sm esmeClosedSample = (esmeClosedSample, 0) :=
  (unbound_ops_noop esmeClosedSample (by decide)).1

/-- Claim C10: under a validated configuration (offset and increment at
least 1) and a cursor reachable by allocations (offset plus a multiple
of the increment), every sequence number returned by a successful bound
operation is at least the offset, hence at least 1; consequently each
operation returns the sentinel 0 exactly when the engine is not in a
bound state. -/
theorem bound_ops_seq_positive (e : Esme) (offset n : Nat)
    (hoff : 1 ≤ offset) (hinc : 1 ≤ e.inc)
    (hseq : e.seq = offset + n * e.inc) :
    (e.state ∈ bound_states →
        offset ≤ (submit_sm e).2 ∧ 1 ≤ (submit_sm e).2 ∧
        offset ≤ (submit_multi e).2 ∧ offset ≤ (enquire_link e).2 ∧
        ∀ message_id source_addr,
          offset ≤ (query_sm e message_id source_addr).2) ∧
    ((submit_sm e).2 = 0 ↔ e.state ∉ bound_states) ∧
    ((submit_multi e).2 = 0 ↔ e.state ∉ bound_states) ∧
    ((enquire_link e).2 = 0 ↔ e.state ∉ bound_states) ∧
    (∀ message_id source_addr,
      (query_sm e message_id source_addr).2 = 0 ↔ e.state ∉ bound_states) := by
  obtain ⟨m, hm⟩ : ∃ m, e.seq = offset + m := ⟨n * e.inc, hseq⟩
  by_cases hb : e.state ∈ bound_states
  · refine ⟨fun _ => ⟨?_, ?_, ?_, ?_, fun mid sa => ?_⟩, ?_, ?_, ?_, fun mid sa => ?_⟩ <;>
      simp [submit_sm, submit_multi, enquire_link, query_sm, hb, hm] <;>
      omega
  · refine ⟨fun hcon => absurd hcon hb, ?_, ?_, ?_, fun mid sa => ?_⟩ <;>
      simp [submit_sm, submit_multi, enquire_link, query_sm, hb]

/-- Witness for claim C10 on the bound sample engine at offset 1. -/
theorem bound_ops_seq_positive_witness :
    (submit_sm esmeBoundSample).2 = 0 ↔ esmeBoundSample.state ∉ bound_states :=
  (bound_ops_seq_positive esmeBoundSample 1 0 (by decide) (by decide)
    (by decide)).2.1

/-- Helper: looking a key up that is absent from the map yields none. -/
theorem lookupClass_eq_none (l : List (String × FaultClass)) (s : String)
    (h : s ∉ l.map Prod.fst) : lookupClass l s = none := by
  induction l with
  | nil => rfl
  | cons kv rest ih =>
    simp only [List.map_cons, List.mem_cons, not_or] at h
    simp [lookupClass, h.1, ih h.2]

/-- Claim C6: the status classifier is a total function into the six
fault classes; every status absent from the dispatch table maps to ok,
and the listed statuses map per the table: ESME_ROK to ok; the five
submit and delivery failures to mess_tempfault; the two bind-state
statuses to conn_tempfault; the six system and credential statuses to
conn_permfault; queue-full and throttled to conn_throttle. -/
theorem command_status_classifier_table :
    (∀ s, s ∉ ESME_command_status_dispatch_map.map Prod.fst →
        command_status_dispatch s = .ok) ∧
    command_status_dispatch "ESME_ROK" = .ok ∧
    command_status_dispatch "ESME_RSUBMITFAIL" = .mess_tempfault ∧
    command_status_dispatch "ESME_RINVNUMMSGS" = .mess_tempfault ∧
    command_status_dispatch "ESME_RDELIVERYFAILURE" = .mess_tempfault ∧
    command_status_dispatch "ESME_RUNKNOWNERR" = .mess_tempfault ∧
    command_status_dispatch "ESME_RX_T_APPN" = .mess_tempfault ∧
    command_status_dispatch "ESME_RINVBNDSTS" = .conn_tempfault ∧
    command_status_dispatch "ESME_RALYBND" = .conn_tempfault ∧
    command_status_dispatch "ESME_RSYSERR" = .conn_permfault ∧
    command_status_dispatch "ESME_RBINDFAIL" = .conn_permfault ∧
    command_status_dispatch "ESME_RINVPASWD" = .conn_permfault ∧
    command_status_dispatch "ESME_RINVSYSID" = .conn_permfault ∧
    command_status_dispatch "ESME_RINVSERTYP" = .conn_permfault ∧
    command_status_dispatch "ESME_RINVSYSTYP" = .conn_permfault ∧
    command_status_dispatch "ESME_RMSGQFUL" = .conn_throttle ∧
    command_status_dispatch "ESME_RTHROTTLED" = .conn_throttle := by
  refine ⟨?_, rfl, rfl, rfl, rfl, rfl, rfl, rfl, rfl, rfl, rfl, rfl, rfl,
    rfl, rfl, rfl, rfl⟩
  intro s hs
  unfold command_status_dispatch
  rw [lookupClass_eq_none _ _ hs]
  rfl

/-- Witness for claim C6 on a status string absent from the table. -/
theorem command_status_classifier_table_witness :
    command_status_dispatch "ESME_NOT_A_STATUS" = .ok :=
  command_status_classifier_table.1 "ESME_NOT_A_STATUS" (by decide)

/-- Helper: iterating submit_sm from a BOUND_TRX engine keeps the state
BOUND_TRX and grows the unacked list by one entry per call. -/
theorem submit_sm_iterate (e : Esme) (h : e.state = "BOUND_TRX") (k : Nat) :
    ((fun s => (submit_sm s).1)^[k] e).state = "BOUND_TRX" ∧
    ((fun s => (submit_sm s).1)^[k] e).unacked.length =
      e.unacked.length + k := by
  induction k with
  | zero => exact ⟨h, rfl⟩
  | succ n ih =>
    rw [Function.iterate_succ_apply']
    obtain ⟨hs, hu⟩ := ih
    set t := (fun s => (submit_sm s).1)^[n] e with ht
    constructor
    · show (submit_sm t).1.state = "BOUND_TRX"
      simp [submit_sm, bound_states, hs]
    · show (submit_sm t).1.unacked.length = e.unacked.length + (n + 1)
      simp [submit_sm, bound_states, hs, hu]
      omega

/-- Helper: handling k submit_sm_resp PDUs pops at most one unacked
entry each, leaving length minus k entries. -/
theorem handle_submit_sm_resp_iterate (e : Esme) (k : Nat) :
    (handle_submit_sm_resp^[k] e).unacked.length = e.unacked.length - k := by
  induction k with
  | zero => rfl
  | succ n ih =>
    rw [Function.iterate_succ_apply']
    simp only [handle_submit_sm_resp, List.length_tail, ih]
    omega

/-- Claim C1: starting from a BOUND_TRX engine with an empty unacked
list, k successful submit_sm calls followed by the handling of k
submit_sm_resp PDUs leave the unacked list empty; each successful
submit_sm pushes exactly one entry, each handled submit_sm_resp pops
exactly one entry, and submit_multi pushes none. -/
theorem unacked_balance (e : Esme) (k : Nat)
    (hstate : e.state = "BOUND_TRX") (hempty : e.unacked = []) :
    (handle_submit_sm_resp^[k]
      ((fun s => (submit_sm s).1)^[k] e)).unacked.length = 0 ∧
    (∀ s : Esme, s.state ∈ bound_states →
      ((submit_sm s).1).unacked.length = s.unacked.length + 1) ∧
    (∀ s : Esme, (handle_submit_sm_resp s).unacked.length =
      s.unacked.length - 1) ∧
    (∀ s : Esme, ((submit_multi s).1).unacked = s.unacked) := by
  refine ⟨?_, ?_, ?_, ?_⟩
  · rw [handle_submit_sm_resp_iterate]
    rw [(submit_sm_iterate e hstate k).2, hempty]
    simp
  · intro s hb
    simp [submit_sm, hb]
  · intro s
    simp [handle_submit_sm_resp]
  · intro s
    by_cases hb : s.state ∈ bound_states <;> simp [submit_multi, hb]

/-- Witness for claim C1 on the bound sample engine with k = 2. -/
theorem unacked_balance_witness :
    (handle_submit_sm_resp^[2]
      ((fun s => (submit_sm s).1)^[2] esmeBoundSample)).unacked.length = 0 :=
  (unacked_balance esmeBoundSample 2 rfl rfl).1

/-- Helper: the framer pops nothing from a buffer shorter than 16 bytes. -/
theorem popData_eq_none_of_short (ds : List Nat) (h : ds.length < 16) :
    popData ds = none := by
  unfold popData
  rw [if_neg (by omega)]

/-- Helper: the framer pops nothing while the buffer holds fewer bytes
than the announced command_length. -/
theorem popData_eq_none_of_wait (ds : List Nat)
    (h : ds.length < bytesToNat (ds.take 4)) : popData ds = none := by
  unfold popData
  split_ifs with h1 h2
  · omega
  · rfl
  · rfl

/-- Helper: when the buffer holds at least 16 bytes and at least
command_length bytes, the framer pops exactly the command_length slice. -/
theorem popData_eq_some (ds : List Nat) (h16 : 16 ≤ ds.length)
    (hcl : bytesToNat (ds.take 4) ≤ ds.length) :
    popData ds = some (ds.take (bytesToNat (ds.take 4)),
                       ds.drop (bytesToNat (ds.take 4))) := by
  unfold popData
  rw [if_pos h16, if_pos hcl]

/-- Helper: the drain loop stops immediately when nothing pops. -/
theorem drain_none (fuel : Nat) (ds : List Nat) (h : popData ds = none) :
    drain fuel ds = ([], ds) := by
  cases fuel with
  | zero => rfl
  | succ n => simp [drain, h]

/-- Helper: when the buffer holds exactly one whole PDU, the drain loop
emits it and stops with an empty buffer. -/
theorem drain_single (fuel : Nat) (ds pdu : List Nat)
    (h : popData ds = some (pdu, [])) :
    drain (fuel + 1) ds = ([pdu], []) := by
  have hnil : popData ([] : List Nat) = none := rfl
  simp [drain, h, drain_none fuel [] hnil]

/-- Helper: a buffer that is exactly one well-formed PDU pops whole. -/
theorem popData_whole (B : List Nat) (h16 : 16 ≤ B.length)
    (hlen : bytesToNat (B.take 4) = B.length) :
    popData B = some (B, []) := by
  rw [popData_eq_some B h16 (by omega), hlen]
  simp

/-- Helper: a strict prefix of a well-formed PDU pops nothing. -/
theorem popData_take_none (B : List Nat) (i : Nat) (h16 : 16 ≤ B.length)
    (hlen : bytesToNat (B.take 4) = B.length) (hi : i < B.length) :
    popData (B.take i) = none := by
  by_cases h : i < 16
  · apply popData_eq_none_of_short
    simp only [List.length_take]
    omega
  · apply popData_eq_none_of_wait
    have h4 : (B.take i).take 4 = B.take 4 := by
      rw [List.take_take]
      congr 1
      omega
    rw [h4, hlen]
    simp only [List.length_take]
    omega

/-- Claim C4: the framer pops a PDU exactly when its buffer holds at
least 16 bytes and at least command_length bytes (the big-endian 32-bit
integer at offset 0); a pop consumes exactly that slice and never a
partial one; consequently, for any well-formed PDU byte string B (one
whose command_length field equals its length) and every split index i,
feeding the first i bytes and then the rest yields exactly the PDU B
with an empty buffer. -/
theorem framer_pop_exact :
    (∀ (B : List Nat) (i : Nat), 16 ≤ B.length →
      bytesToNat (B.take 4) = B.length → i ≤ B.length →
      (dataReceived [] (B.take i)).1 ++
        (dataReceived (dataReceived [] (B.take i)).2 (B.drop i)).1 = [B] ∧
      (dataReceived (dataReceived [] (B.take i)).2 (B.drop i)).2 = []) ∧
    (∀ ds : List Nat, (popData ds).isSome ↔
      (16 ≤ ds.length ∧ bytesToNat (ds.take 4) ≤ ds.length)) ∧
    (∀ (ds pdu rest : List Nat), popData ds = some (pdu, rest) →
      pdu = ds.take (bytesToNat (ds.take 4)) ∧
      rest = ds.drop (bytesToNat (ds.take 4)) ∧ pdu ++ rest = ds) := by
  refine ⟨?_, ?_, ?_⟩
  · intro B i h16 hlen hi
    rcases Nat.lt_or_ge i B.length with hil | hig
    · have hr1 : dataReceived [] (B.take i) = ([], B.take i) := by
        unfold dataReceived
        rw [List.nil_append]
        exact drain_none _ _ (popData_take_none B i h16 hlen hil)
      have hpop2 : popData (B.take i ++ B.drop i) = some (B, []) := by
        rw [List.take_append_drop]
        exact popData_whole B h16 hlen
      have hr2 : dataReceived (B.take i) (B.drop i) = ([B], []) := by
        unfold dataReceived
        exact drain_single _ _ _ hpop2
      simp [hr1, hr2]
    · have hieq : i = B.length := le_antisymm hi hig
      subst hieq
      have hr1 : dataReceived [] B = ([B], []) := by
        unfold dataReceived
        simp only [List.nil_append, List.length_nil]
        exact drain_single _ _ _ (popData_whole B h16 hlen)
      have hr2 : dataReceived [] ([] : List Nat) = ([], []) := by
        unfold dataReceived
        exact drain_none _ _ rfl
      simp [hr1, hr2]
  · intro ds
    unfold popData
    split_ifs with h1 h2 <;> simp_all
  · intro ds pdu rest h
    unfold popData at h
    split_ifs at h with h1 h2
    · simp only [Option.some.injEq, Prod.mk.injEq] at h
      obtain ⟨hp, hr⟩ := h
      refine ⟨hp.symm, hr.symm, ?_⟩
      rw [← hp, ← hr]
      exact List.take_append_drop _ _

/-- Witness for claim C4: the 16-byte sample PDU split at index 7. -/
theorem framer_pop_exact_witness :
    (dataReceived [] (pduSampleB.take 7)).1 ++
      (dataReceived (dataReceived [] (pduSampleB.take 7)).2
        (pduSampleB.drop 7)).1 = [pduSampleB] ∧
    (dataReceived (dataReceived [] (pduSampleB.take 7)).2
      (pduSampleB.drop 7)).2 = [] :=
  framer_pop_exact.1 pduSampleB 7 (by decide) (by decide) (by decide)

/-- Claim C5 (amended): the framer performs no validation of
command_length and has no failure path: for every input whose 4-byte
big-endian command_length field is below 16, once 16 bytes are buffered
the framer still pops a command_length-byte slice (possibly empty or
cutting a header in half) and hands it to the PDU unpacker; no
FrameError exists and no maximum length is enforced, so the connection
is not dropped. -/
theorem framer_no_length_validation (ds : List Nat) (h16 : 16 ≤ ds.length)
    (hcl : bytesToNat (ds.take 4) < 16) :
    popData ds = some (ds.take (bytesToNat (ds.take 4)),
                       ds.drop (bytesToNat (ds.take 4))) :=
  popData_eq_some ds h16 (by omega)

/-- Claim C5 counterexample: a 16-byte input announcing command_length 4
(below the 16-byte header minimum) is popped successfully as a 4-byte
slice instead of failing; popData has no error result at all. -/
theorem framer_no_frame_error_cex :
    popData ([0, 0, 0, 4] ++ List.replicate 12 7) =
      some ([0, 0, 0, 4], List.replicate 12 7) := by decide

/-- Witness for claim C5 (amended) on a 16-byte buffer announcing
command_length 0: an empty slice is popped and the buffer never
advances. -/
theorem framer_no_length_validation_witness :
    popData (List.replicate 16 0) = some ([], List.replicate 16 0) :=
  framer_no_length_validation (List.replicate 16 0) (by decide) (by decide)

/-- Claim C7 (amended): for every inbound deliver_sm PDU whose
command_status is ESME_ROK, the handler sends exactly one
deliver_sm_resp carrying the sequence_number of the inbound PDU and then
takes exactly one action: the delivery-report callback when
short_message matches the receipt grammar, multipart reassembly when the
PDU carries multipart markers, else the deliver callback with
short_message decoded by data_coding (1 as ascii, 3 as latin1, 8 as
utf-16be, any other value passed through raw); a deliver_sm whose
command_status is not ESME_ROK is ignored entirely: no response is sent
and no callback is invoked. -/
theorem deliver_sm_dispatch :
    (∀ (matches_delivery_report detects_multipart : Bool)
       (pdu : DeliverSmPdu), pdu.command_status = "ESME_ROK" →
      (handle_deliver_sm matches_delivery_report detects_multipart pdu).1 =
        [("deliver_sm_resp", pdu.sequence_number)]) ∧
    (∀ (detects_multipart : Bool) (pdu : DeliverSmPdu),
      pdu.command_status = "ESME_ROK" →
      (handle_deliver_sm true detects_multipart pdu).2 =
        some (.report pdu.mandatory_parameters.destination_addr
                      pdu.mandatory_parameters.source_addr)) ∧
    (∀ pdu : DeliverSmPdu, pdu.command_status = "ESME_ROK" →
      (handle_deliver_sm false true pdu).2 = some .multipart) ∧
    (∀ pdu : DeliverSmPdu, pdu.command_status = "ESME_ROK" →
      (handle_deliver_sm false false pdu).2 =
        some (.deliver pdu.mandatory_parameters.destination_addr
                       pdu.mandatory_parameters.source_addr
                       (decode_message pdu.mandatory_parameters.short_message
                                       pdu.mandatory_parameters.data_coding))) ∧
    (∀ (matches_delivery_report detects_multipart : Bool)
       (pdu : DeliverSmPdu), pdu.command_status ≠ "ESME_ROK" →
      handle_deliver_sm matches_delivery_report detects_multipart pdu =
        ([], none)) ∧
    (∀ msg, decode_message msg 1 = .decoded "ascii" msg) ∧
    (∀ msg, decode_message msg 3 = .decoded "latin1" msg) ∧
    (∀ msg, decode_message msg 8 = .decoded "utf-16be" msg) ∧
    (∀ msg (dc : Int), dc ≠ 1 → dc ≠ 3 → dc ≠ 8 →
      decode_message msg dc = .raw msg) := by
  refine ⟨?_, ?_, ?_, ?_, ?_, fun msg => rfl, fun msg => rfl, fun msg => rfl, ?_⟩
  · intro r m pdu h
    simp [handle_deliver_sm, h]
  · intro m pdu h
    simp [handle_deliver_sm, h]
  · intro pdu h
    simp [handle_deliver_sm, h]
  · intro pdu h
    simp [handle_deliver_sm, h]
  · intro r m pdu h
    simp [handle_deliver_sm, h]
  · intro msg dc h1 h3 h8
    simp [decode_message, codec_for, h1, h3, h8]

/-- Claim C7 counterexample: a deliver_sm PDU whose command_status is
ESME_RSYSERR produces no deliver_sm_resp and no callback at all, against
the claim that every inbound deliver_sm is answered with a response
carrying its sequence number. -/
theorem deliver_sm_requires_rok_cex :
    handle_deliver_sm false false
      { command_status := "ESME_RSYSERR", sequence_number := 5,
        mandatory_parameters :=
          { short_message := "x", data_coding := 0,
            destination_addr := "d", source_addr := "s" } } = ([], none) := by
  decide

/-- Witness for claim C7 (amended) on the ESME_ROK sample PDU. -/
theorem deliver_sm_dispatch_witness :
    (handle_deliver_sm false false deliverPduSample).1 =
      [("deliver_sm_resp", 42)] :=
  deliver_sm_dispatch.1 false false deliverPduSample rfl
